import Mathlib

/-!
# Verification of the region-file scanning core of Minecraft-Region-Fixer

Shallow embedding of `regionfixer_core/scan.py`: the chunk classifier
(`scan_chunk`), the region scanner (`scan_region_file`) with its per-slot
loop and shared-offset post-pass, the worker task boundary and fault
marshaling, and the scan-session consumer (`AsyncRegionsetScanner`).

External collaborators (the nbt format reader, `world.py` helpers) are
modelled by their abstract contracts as the spec describes them; all the
scanning logic itself follows `scan.py` line by line.
-/

/-- Chunk classification statuses, the `CHUNK_*` constants of `world.py`
(spec section 3, ChunkStatus closed enum). -/
inductive ChunkStatus where
  | CHUNK_OK
  | CHUNK_NOT_CREATED
  | CHUNK_TOO_MANY_ENTITIES
  | CHUNK_CORRUPTED
  | CHUNK_WRONG_LOCATED
  | CHUNK_SHARED_OFFSET
deriving DecidableEq, Repr

/-- Region-level statuses, the `REGION_*` constants of `world.py`. -/
inductive RegionStatus where
  | REGION_OK
  | REGION_TOO_SMALL
  | REGION_UNREADABLE
deriving DecidableEq, Repr

/-- A stored chunk record: the tuple `(num_entities, status)` of `scan.py`
(indices `TUPLE_NUM_ENTITIES = 0`, `TUPLE_STATUS = 1`). The entity count is
`none` when unknown (corrupted chunk). -/
abbrev ChunkRecord := Option Nat × ChunkStatus

/-- A local coordinate inside one region file: `(x, z)` with both in `0..31`. -/
abbrev LocalCoords := Fin 32 × Fin 32

/-- Outcome of the format reader call `region_file.get_chunk(x, z)` used by
`scan_chunk`: either a decoded chunk, exposed through the two queries
`scan_chunk` performs on it (the declared data coordinates obtained via
`world.get_chunk_data_coords` and the length of `chunk["Level"]["Entities"]`),
or one of the typed decode errors of `nbt.region` that `scan_chunk` catches. -/
inductive GetChunkResult where
  | ok (data_coords : Int × Int) (num_entities : Nat)
  | inconceivedChunk
  | regionHeaderError (msg : String)
  | chunkDataError (msg : String)
  | chunkHeaderError (msg : String)
deriving DecidableEq, Repr

/-- The local variables of `scan_chunk` at its return point
(`num_entities`, `status`, `status_text`), scan.py lines 698-751. -/
structure ChunkScanLocals where
  num_entities : Option Nat
  status : ChunkStatus
  status_text : String
deriving DecidableEq, Repr

/-- The classification logic of `scan_chunk` (scan.py lines 698-751):
coordinate mismatch, then entity overflow, then OK; the four caught
exceptions give `NOT_CREATED` or `CORRUPTED` with the decoder message. -/
def scan_chunk_locals (decode : GetChunkResult) (global_coords : Int × Int)
    (entity_limit : Nat) : ChunkScanLocals :=
  match decode with
  | .ok data_coords num_entities =>
    if data_coords ≠ global_coords then
      { num_entities := some num_entities,
        status := ChunkStatus.CHUNK_WRONG_LOCATED,
        status_text := "Mismatched coordinates (wrong located chunk)." }
    else if num_entities > entity_limit then
      { num_entities := some num_entities,
        status := ChunkStatus.CHUNK_TOO_MANY_ENTITIES,
        status_text := "The chunks has too many entities (it has " ++
          toString num_entities ++ ", and it is more than the limit " ++
          toString entity_limit ++ ")" }
    else
      { num_entities := some num_entities,
        status := ChunkStatus.CHUNK_OK,
        status_text := "OK" }
  | .inconceivedChunk =>
      { num_entities := none,
        status := ChunkStatus.CHUNK_NOT_CREATED,
        status_text := "The chunk does not exist" }
  | .regionHeaderError msg =>
      { num_entities := none,
        status := ChunkStatus.CHUNK_CORRUPTED,
        status_text := "Region header error: " ++ msg }
  | .chunkDataError msg =>
      { num_entities := none,
        status := ChunkStatus.CHUNK_CORRUPTED,
        status_text := "Chunk data error: " ++ msg }
  | .chunkHeaderError msg =>
      { num_entities := none,
        status := ChunkStatus.CHUNK_CORRUPTED,
        status_text := "Chunk herader error: " ++ msg }

/-- `scan_chunk` as seen by its caller: the second component of
`return chunk, (num_entities, status) if status != world.CHUNK_NOT_CREATED
else None` (scan.py line 753). -/
def scan_chunk (decode : GetChunkResult) (global_coords : Int × Int)
    (entity_limit : Nat) : Option ChunkRecord :=
  let l := scan_chunk_locals decode global_coords entity_limit
  if l.status ≠ ChunkStatus.CHUNK_NOT_CREATED then
    some (l.num_entities, l.status)
  else
    none

/-- Outcome of `region.RegionFile(r.path)` (the nbt format reader's open,
scan.py lines 596-607): success exposes the per-chunk decode outcomes and
the header sector metadata; failure is one of the two caught exceptions. -/
inductive OpenResult where
  | ok (get_chunk : Fin 32 → Fin 32 → GetChunkResult)
       (overlapping : LocalCoords → Bool)
  | noRegionHeader
  | ioError

/-- A successfully opened region file: the two capabilities `scan_region_file`
uses, `region_file.get_chunk(x, z)` and the sector metadata consulted as
`region_file.metadata[k].status == region.STATUS_CHUNK_OVERLAPPING`
(the overlap flag of the spec's SectorMetadata). -/
structure RegionFileData where
  get_chunk : Fin 32 → Fin 32 → GetChunkResult
  overlapping : LocalCoords → Bool

/-- The `ScannedRegionFile` object of `world.py` as used by `scan.py`:
its chunk-record mapping (`r.chunks` / `r[k]`), region status, counters and
scan bookkeeping. `scan_time` (a wall-clock stamp) is modelled by the flag
`scan_time_recorded`. `regionX`/`regionZ` are the region coordinates of the
file, from which global chunk coordinates are derived. -/
structure ScannedRegionFile where
  filename : String
  regionX : Int
  regionZ : Int
  chunks : LocalCoords → Option ChunkRecord
  status : RegionStatus
  chunk_count : Nat
  corrupted_chunks : Nat
  wrong_located_chunks : Nat
  entities_prob : Nat
  shared_offset : Nat
  scanned : Bool
  scan_time_recorded : Bool

/-- Modelled from the spec: `world.ScannedRegionFile.get_coords()` returns
the region-file coordinates that key the authoritative regionset
("RegionSet ... keyed by coordinate", spec section 3). -/
def ScannedRegionFile.get_coords (r : ScannedRegionFile) : Int × Int :=
  (r.regionX, r.regionZ)

/-- Modelled from the spec: `world.ScannedRegionFile.get_global_chunk_coords`;
"local -> global mapping is purely additive (region origin + local offset)"
(spec section 3). -/
def ScannedRegionFile.get_global_chunk_coords (r : ScannedRegionFile)
    (x z : Fin 32) : Int × Int :=
  (32 * r.regionX + (x.val : Int), 32 * r.regionZ + (z.val : Int))

/-- Modelled from the spec: a `ScannedRegionFile` as constructed before
submission -- "created empty ... before submission, mutated exactly once by
the worker that scans them (transitioning scanned: false -> true)"
(spec section 3, Lifecycle). The pre-scan region status is irrelevant to
every claim and is a parameter. -/
def freshScannedRegionFile (filename : String) (rx rz : Int)
    (st : RegionStatus) : ScannedRegionFile :=
  { filename := filename
    regionX := rx
    regionZ := rz
    chunks := fun _ => none
    status := st
    chunk_count := 0
    corrupted_chunks := 0
    wrong_located_chunks := 0
    entities_prob := 0
    shared_offset := 0
    scanned := false
    scan_time_recorded := false }

/-- One entity-deletion side effect of the scan loop: the call
`world.delete_entities(region_file, x, z)` plus the printed notification
carrying `c[TUPLE_NUM_ENTITIES]` (scan.py lines 631-634), modelled as the
event (coordinate, reported entity count). -/
abbrev DeletionEvent := LocalCoords × Option Nat

/-- The mutable state of `scan_region_file`'s chunk loop (scan.py lines
585-593 and 609-650): the in-place mutated `r.chunks` mapping, the local
counters, and the ordered list of deletion side effects. -/
structure ScanState where
  r_chunks : LocalCoords → Option ChunkRecord
  chunk_count : Nat
  corrupted : Nat
  wrong : Nat
  entities_prob : Nat
  deletions : List DeletionEvent

/-- The loop body of `scan_region_file` for one local coordinate
(scan.py lines 611-650): call `scan_chunk`, store the record (or skip a
not-created chunk), then dispatch on the record status, with the
entity-deletion branch for `TOO_MANY_ENTITIES`. -/
def scanStep (rf : RegionFileData) (gc : Fin 32 → Fin 32 → Int × Int)
    (entity_limit : Nat) (delete_entities : Bool)
    (s : ScanState) (k : LocalCoords) : ScanState :=
  match scan_chunk (rf.get_chunk k.1 k.2) (gc k.1 k.2) entity_limit with
  | none => s
  | some c =>
    let s1 : ScanState :=
      { s with r_chunks := Function.update s.r_chunks k (some c),
               chunk_count := s.chunk_count + 1 }
    if c.2 = ChunkStatus.CHUNK_OK then s1
    else if c.2 = ChunkStatus.CHUNK_TOO_MANY_ENTITIES then
      if delete_entities then
        { s1 with
            r_chunks := Function.update s1.r_chunks k
              (some (some 0, ChunkStatus.CHUNK_OK)),
            deletions := s1.deletions ++ [(k, c.1)] }
      else { s1 with entities_prob := s1.entities_prob + 1 }
    else if c.2 = ChunkStatus.CHUNK_CORRUPTED then
      { s1 with corrupted := s1.corrupted + 1 }
    else if c.2 = ChunkStatus.CHUNK_WRONG_LOCATED then
      { s1 with wrong := s1.wrong + 1 }
    else s1

/-- All 1024 local coordinates in the raster order of the scan loop
(`for x in range(32): for z in range(32)`, scan.py lines 609-610). -/
def allCoords : List LocalCoords :=
  (List.finRange 32).flatMap (fun x => (List.finRange 32).map (fun z => (x, z)))

/-- The scan state produced by the whole chunk loop of `scan_region_file`,
starting from the submitted `ScannedRegionFile`'s chunk mapping and zeroed
local counters (scan.py lines 586-593, 609-650). -/
def scanLoop (r0 : ScannedRegionFile) (rf : RegionFileData)
    (entity_limit : Nat) (delete_entities : Bool) : ScanState :=
  allCoords.foldl
    (scanStep rf r0.get_global_chunk_coords entity_limit delete_entities)
    { r_chunks := r0.chunks, chunk_count := 0, corrupted := 0, wrong := 0,
      entities_prob := 0, deletions := [] }

/-- One captured `sys.exc_info()` traceback frame as extracted by
`traceback.extract_tb`: (file, line, function, source text). -/
abbrev TracebackFrame := String × Nat × String × String

/-- The captured exception information of the fault tuple
`(scanned_regionfile_obj, (except_type, except_class, extract_tb(tb)))`
(scan.py lines 688-689): exception type, exception value, stack frames. -/
structure ExcInfo where
  exc_type : String
  exc_class : String
  tb_text : List TracebackFrame
deriving DecidableEq, Repr

/-- The `sys.exc_info()` capture for the `KeyError` raised by the post-pass
lookup `r[k]` when local coordinate `k` has no stored chunk record. -/
def keyErrorInfo (k : LocalCoords) : ExcInfo :=
  { exc_type := "KeyError",
    exc_class := "KeyError: (" ++ toString k.1.val ++ ", " ++
      toString k.2.val ++ ")",
    tb_text := [] }

/-- The `sharing` list comprehension of the post-pass (scan.py lines
659-661): over the metadata keys in order, keep `k` when the overlap flag is
set and the stored record's status is `WRONG_LOCATED`; the lookup `r[k]` on
an overlap-flagged coordinate with no stored record raises `KeyError(k)`. -/
def computeSharing (rf : RegionFileData)
    (chunks : LocalCoords → Option ChunkRecord) :
    List LocalCoords → Except LocalCoords (List LocalCoords)
  | [] => Except.ok []
  | k :: ks =>
    if rf.overlapping k then
      match chunks k with
      | none => Except.error k
      | some c =>
        (computeSharing rf chunks ks).map
          (fun rest =>
            if c.2 = ChunkStatus.CHUNK_WRONG_LOCATED then k :: rest else rest)
    else computeSharing rf chunks ks

/-- The reclassification loop of the post-pass (scan.py lines 662-665):
`for k in sharing: r[k] = (r[k][TUPLE_NUM_ENTITIES], CHUNK_SHARED_OFFSET);
shared_counter += 1`. A lookup of a missing key would raise `KeyError`;
the error carries the partially updated mapping and the offending key. -/
def applySharing (chunks : LocalCoords → Option ChunkRecord)
    (shared_counter : Nat) :
    List LocalCoords →
      Except ((LocalCoords → Option ChunkRecord) × LocalCoords)
        ((LocalCoords → Option ChunkRecord) × Nat)
  | [] => Except.ok (chunks, shared_counter)
  | k :: ks =>
    match chunks k with
    | none => Except.error (chunks, k)
    | some c =>
      applySharing
        (Function.update chunks k (some (c.1, ChunkStatus.CHUNK_SHARED_OFFSET)))
        (shared_counter + 1) ks

/-- An exception reaching the task boundary of `scan_region_file`:
either the operator's `KeyboardInterrupt` or any other exception with its
captured `sys.exc_info()` data. -/
inductive PyExc where
  | keyboardInterrupt
  | other (info : ExcInfo)

/-- What the body of `scan_region_file`'s outer `try` does after a
successful open: either it returns the filled `ScannedRegionFile`, or an
exception is raised while `scanned_regionfile_obj` holds a partially
filled state. -/
inductive BodyOutcome where
  | returns (r : ScannedRegionFile)
  | raises (partial_r : ScannedRegionFile) (e : PyExc)

/-- The value `scan_region_file` produces at its task boundary: a normal
`ScannedRegionFile`, the fault tuple
`(scanned_regionfile_obj, (except_type, except_class, extract_tb(tb)))`,
or `sys.exit(1)` on `KeyboardInterrupt` (scan.py lines 675-691). -/
inductive ScanRFResult where
  | ok (r : ScannedRegionFile)
  | faultTuple (scanned_file : ScannedRegionFile) (info : ExcInfo)
  | sysExit (code : Nat)

/-- The `try/except` task boundary of `scan_region_file` (scan.py lines
584, 677-691): a normal return passes through, `KeyboardInterrupt` exits the
process, and any other exception becomes the fault tuple pairing the
partially filled scan object with the captured exception info. -/
def scanTaskBoundary : BodyOutcome → ScanRFResult
  | BodyOutcome.returns r => ScanRFResult.ok r
  | BodyOutcome.raises _ PyExc.keyboardInterrupt => ScanRFResult.sysExit 1
  | BodyOutcome.raises partial_r (PyExc.other info) =>
      ScanRFResult.faultTuple partial_r info

/-- The body of `scan_region_file` after a successful open (scan.py lines
609-675): run the chunk loop, compute the `sharing` list and apply the
shared-offset reclassification (a `KeyError` in either escapes to the
boundary with `r.chunks` as mutated so far), then fill in the counters,
`shared_offset`, `scan_time`, `status = REGION_OK` and `scanned = True`. -/
def scanBody (r0 : ScannedRegionFile) (rf : RegionFileData)
    (entity_limit : Nat) (delete_entities : Bool) : BodyOutcome :=
  let s := scanLoop r0 rf entity_limit delete_entities
  match computeSharing rf s.r_chunks allCoords with
  | Except.error k =>
      BodyOutcome.raises { r0 with chunks := s.r_chunks }
        (PyExc.other (keyErrorInfo k))
  | Except.ok sharing =>
    match applySharing s.r_chunks 0 sharing with
    | Except.error (partial_chunks, k) =>
        BodyOutcome.raises { r0 with chunks := partial_chunks }
          (PyExc.other (keyErrorInfo k))
    | Except.ok (chunks2, shared_counter) =>
        BodyOutcome.returns
          { r0 with
              chunks := chunks2,
              chunk_count := s.chunk_count,
              corrupted_chunks := s.corrupted,
              wrong_located_chunks := s.wrong,
              entities_prob := s.entities_prob,
              shared_offset := shared_counter,
              status := RegionStatus.REGION_OK,
              scanned := true,
              scan_time_recorded := true }

/-- `scan_region_file` (scan.py lines 574-691): the two open-failure
short-circuits (`NoRegionHeader` -> `REGION_TOO_SMALL`, `IOError` ->
`REGION_UNREADABLE`, both recording `scan_time` and `scanned = True` and
returning at once), and otherwise the scan body wrapped in the
fault-marshaling task boundary. -/
def scan_region_file (r0 : ScannedRegionFile) (openRes : OpenResult)
    (entity_limit : Nat) (delete_entities : Bool) : ScanRFResult :=
  match openRes with
  | OpenResult.noRegionHeader =>
      ScanRFResult.ok
        { r0 with status := RegionStatus.REGION_TOO_SMALL,
                  scan_time_recorded := true, scanned := true }
  | OpenResult.ioError =>
      ScanRFResult.ok
        { r0 with status := RegionStatus.REGION_UNREADABLE,
                  scan_time_recorded := true, scanned := true }
  | OpenResult.ok get_chunk overlapping =>
      scanTaskBoundary
        (scanBody r0 { get_chunk := get_chunk, overlapping := overlapping }
          entity_limit delete_entities)

/-- One item of the shared result channel (`queues.SimpleQueue`): either a
`ScannedRegionFile` or the fault tuple. The consumer discriminates the two
with `isinstance(r, tuple)`. -/
inductive QueueItem where
  | result (r : ScannedRegionFile)
  | faultTuple (scanned_file : ScannedRegionFile) (info : ExcInfo)

/-- The consumer's shape test `isinstance(r, tuple)` (scan.py line 159):
fault values are tuples, scan results are `ScannedRegionFile` objects. -/
def QueueItem.isTuple : QueueItem → Bool
  | QueueItem.result _ => false
  | QueueItem.faultTuple _ _ => true

/-- `multiprocess_scan_regionfile.q.put(r)` (scan.py line 776): the value
returned by `scan_region_file` is appended to the channel; on
`KeyboardInterrupt` the process exited and nothing is enqueued. -/
def put_result (q : List QueueItem) : ScanRFResult → List QueueItem
  | ScanRFResult.ok r => q ++ [QueueItem.result r]
  | ScanRFResult.faultTuple p info => q ++ [QueueItem.faultTuple p info]
  | ScanRFResult.sysExit _ => q

/-- `multiprocess_scan_regionfile` (scan.py lines 765-776): run
`scan_region_file` with the worker's configured entity limit and
entity-removal flag, and push the outcome onto the shared channel. -/
def multiprocess_scan_regionfile (q : List QueueItem)
    (r0 : ScannedRegionFile) (openRes : OpenResult)
    (entity_limit : Nat) (remove_entities : Bool) : List QueueItem :=
  put_result q (scan_region_file r0 openRes entity_limit remove_entities)

/-- The consumer-side state of an `AsyncRegionsetScanner` session: the
shared result channel (FIFO, head = next `q.get()`), the authoritative
regionset keyed by region coordinates, the regionset's display name and the
`_str_last_scanned` string. -/
structure SessionState where
  queue : List QueueItem
  regionset : Int × Int → Option ScannedRegionFile
  regionset_name : String
  str_last_scanned : Option String

/-- What one call of `AsyncRegionsetScanner.get_last_result` does: returns
`None`, raises `ChildProcessException(r[0], r[1][0], r[1][1], r[1][2])`, or
returns a `ScannedRegionFile`. -/
inductive GetLastOutcome where
  | noResult
  | childProcessException (scanned_file : ScannedRegionFile)
      (exc_type exc_class : String) (tb_text : List TracebackFrame)
  | ok (r : ScannedRegionFile)

/-- `AsyncRegionsetScanner.get_last_result` (scan.py lines 145-167):
non-blocking -- an empty channel returns `None` and changes nothing; a
popped fault tuple raises `ChildProcessException` with its pieces; a popped
result is written into the regionset at `r.get_coords()`, updates
`_str_last_scanned`, and is returned. -/
def AsyncRegionsetScanner.get_last_result (s : SessionState) :
    GetLastOutcome × SessionState :=
  match s.queue with
  | [] => (GetLastOutcome.noResult, s)
  | QueueItem.faultTuple p info :: rest =>
      (GetLastOutcome.childProcessException p info.exc_type info.exc_class
        info.tb_text,
       { s with queue := rest })
  | QueueItem.result r :: rest =>
      (GetLastOutcome.ok r,
       { s with
           queue := rest,
           regionset := Function.update s.regionset r.get_coords (some r),
           str_last_scanned :=
             some (s.regionset_name ++ ": " ++ r.filename) })

/-- `AsyncRegionsetScanner.finished` (scan.py lines 179-182):
`self._results.ready() and self.queue.empty()`. -/
def AsyncRegionsetScanner.finished (results_ready queue_empty : Bool) : Bool :=
  results_ready && queue_empty

/-- The loop guard of the blocking generator `AsyncRegionsetScanner.results`
(scan.py line 203): `while not q.empty() or not self.finished`. -/
def AsyncRegionsetScanner.results_loop_cond (results_ready queue_empty : Bool) :
    Bool :=
  !queue_empty || !(AsyncRegionsetScanner.finished results_ready queue_empty)

/-- Net effect of one scan-loop step on its own slot: not-created chunks
leave the slot as it was; a classified record is stored, except that an
over-limit chunk under `delete_entities` ends up stored as `(0, CHUNK_OK)`
(scan.py lines 617-636). -/
def slotOutcome (rf : RegionFileData) (gc : Fin 32 → Fin 32 → Int × Int)
    (entity_limit : Nat) (delete_entities : Bool)
    (init : Option ChunkRecord) (k : LocalCoords) : Option ChunkRecord :=
  match scan_chunk (rf.get_chunk k.1 k.2) (gc k.1 k.2) entity_limit with
  | none => init
  | some c =>
    if c.2 = ChunkStatus.CHUNK_TOO_MANY_ENTITIES ∧ delete_entities then
      some (some 0, ChunkStatus.CHUNK_OK)
    else some c

/-- The membership test of the `sharing` comprehension: overlap flag set and
the stored record's status `WRONG_LOCATED` (scan.py lines 659-661). -/
def sharedCandidate (rf : RegionFileData)
    (chunks : LocalCoords → Option ChunkRecord) (k : LocalCoords) : Bool :=
  rf.overlapping k &&
    match chunks k with
    | some c => decide (c.2 = ChunkStatus.CHUNK_WRONG_LOCATED)
    | none => false

/-- Whether a `get_last_result` call raised `ChildProcessException`. -/
def GetLastOutcome.raisedChildProcessException : GetLastOutcome → Bool
  | GetLastOutcome.childProcessException _ _ _ _ => true
  | _ => false

/-- Concrete fixture: a region file whose chunks are all absent while every
header slot carries the overlap flag, so the post-pass looks up records
that were never stored. -/
def emptyOverlapRegion : RegionFileData :=
  { get_chunk := fun _ _ => GetChunkResult.inconceivedChunk
    overlapping := fun _ => true }

/-- Concrete fixture: a region file with all chunks absent and no overlap
flags. -/
def emptyCleanRegion : RegionFileData :=
  { get_chunk := fun _ _ => GetChunkResult.inconceivedChunk
    overlapping := fun _ => false }

/-- Concrete fixture: the fresh scan object for region file r.0.0.mca. -/
def sampleRegion0 : ScannedRegionFile :=
  freshScannedRegionFile "r.0.0.mca" 0 0 RegionStatus.REGION_OK

/-! ## Helper lemmas -/

/-- A scan-loop step never touches any slot other than its own. -/
theorem scanStep_chunks_ne (rf : RegionFileData)
    (gc : Fin 32 → Fin 32 → Int × Int) (el : Nat) (dele : Bool)
    (s : ScanState) (k j : LocalCoords) (hjk : j ≠ k) :
    (scanStep rf gc el dele s k).r_chunks j = s.r_chunks j := by
  unfold scanStep
  cases h : scan_chunk (rf.get_chunk k.1 k.2) (gc k.1 k.2) el with
  | none => rfl
  | some c =>
    simp only []
    split
    · simp [Function.update_noteq hjk]
    · split
      · split
        · simp [Function.update_noteq hjk]
        · simp [Function.update_noteq hjk]
      · split
        · simp [Function.update_noteq hjk]
        · split
          · simp [Function.update_noteq hjk]
          · simp [Function.update_noteq hjk]

/-- A scan-loop step updates its own slot to the step's net outcome. -/
theorem scanStep_chunks_self (rf : RegionFileData)
    (gc : Fin 32 → Fin 32 → Int × Int) (el : Nat) (dele : Bool)
    (s : ScanState) (k : LocalCoords) :
    (scanStep rf gc el dele s k).r_chunks k =
      slotOutcome rf gc el dele (s.r_chunks k) k := by
  unfold scanStep slotOutcome
  cases h : scan_chunk (rf.get_chunk k.1 k.2) (gc k.1 k.2) el with
  | none => rfl
  | some c =>
    simp only []
    by_cases h1 : c.2 = ChunkStatus.CHUNK_OK
    · simp [h1]
    · by_cases h2 : c.2 = ChunkStatus.CHUNK_TOO_MANY_ENTITIES
      · cases dele with
        | true => simp [h1, h2]
        | false => simp [h1, h2]
      · by_cases h3 : c.2 = ChunkStatus.CHUNK_CORRUPTED
        · simp [h1, h2, h3]
        · by_cases h4 : c.2 = ChunkStatus.CHUNK_WRONG_LOCATED
          · simp [h1, h2, h3, h4]
          · simp [h1, h2, h3, h4]

/-- The raster coordinate list is the product of the two `range(32)`s. -/
theorem allCoords_eq_product :
    allCoords = (List.finRange 32) ×ˢ (List.finRange 32) := rfl

/-- No local coordinate is visited twice by the scan loop. -/
theorem allCoords_nodup : allCoords.Nodup := by
  rw [allCoords_eq_product]
  exact List.Nodup.product (List.nodup_finRange 32) (List.nodup_finRange 32)

/-- Every local coordinate is visited by the scan loop. -/
theorem mem_allCoords (k : LocalCoords) : k ∈ allCoords := by
  rw [allCoords_eq_product]
  cases k with
  | mk x z => exact List.mem_product.mpr ⟨List.mem_finRange x, List.mem_finRange z⟩

/-- Folding the scan step over coordinates none of which is `j` leaves
slot `j` unchanged. -/
theorem scanFold_chunks_not_mem (rf : RegionFileData)
    (gc : Fin 32 → Fin 32 → Int × Int) (el : Nat) (dele : Bool) :
    ∀ (l : List LocalCoords) (s : ScanState) (j : LocalCoords), j ∉ l →
      (l.foldl (scanStep rf gc el dele) s).r_chunks j = s.r_chunks j := by
  intro l
  induction l with
  | nil => intro s j _; rfl
  | cons k ks ih =>
    intro s j hj
    rw [List.foldl_cons,
      ih (scanStep rf gc el dele s k) j (fun h => hj (List.mem_cons_of_mem _ h))]
    exact scanStep_chunks_ne rf gc el dele s k j
      (fun h => hj (h ▸ List.mem_cons_self _ _))

/-- Folding the scan step over a duplicate-free coordinate list containing
`j` leaves slot `j` holding the net outcome of `j`'s own step. -/
theorem scanFold_chunks_mem (rf : RegionFileData)
    (gc : Fin 32 → Fin 32 → Int × Int) (el : Nat) (dele : Bool) :
    ∀ (l : List LocalCoords), l.Nodup → ∀ (s : ScanState) (j : LocalCoords),
      j ∈ l →
      (l.foldl (scanStep rf gc el dele) s).r_chunks j =
        slotOutcome rf gc el dele (s.r_chunks j) j := by
  intro l
  induction l with
  | nil => intro _ s j hj; cases hj
  | cons k ks ih =>
    intro hnd s j hj
    rw [List.foldl_cons]
    rcases List.mem_cons.mp hj with h | h
    · subst h
      rw [scanFold_chunks_not_mem rf gc el dele ks _ j (List.nodup_cons.mp hnd).1]
      exact scanStep_chunks_self rf gc el dele s j
    · rw [ih (List.nodup_cons.mp hnd).2 _ _ h,
        scanStep_chunks_ne rf gc el dele s k j
          (fun hjk => (List.nodup_cons.mp hnd).1 (hjk ▸ h))]

/-- The chunk mapping after the whole scan loop, slot by slot. -/
theorem scanLoop_chunks (r0 : ScannedRegionFile) (rf : RegionFileData)
    (el : Nat) (dele : Bool) (j : LocalCoords) :
    (scanLoop r0 rf el dele).r_chunks j =
      slotOutcome rf r0.get_global_chunk_coords el dele (r0.chunks j) j := by
  unfold scanLoop
  exact scanFold_chunks_mem rf r0.get_global_chunk_coords el dele allCoords
    allCoords_nodup _ j (mem_allCoords j)

/-- When every overlap-flagged coordinate of the list has a stored record,
the `sharing` comprehension succeeds and selects exactly the coordinates
that are overlap-flagged with status `WRONG_LOCATED`. -/
theorem computeSharing_ok (rf : RegionFileData)
    (chunks : LocalCoords → Option ChunkRecord) :
    ∀ (l : List LocalCoords),
      (∀ k ∈ l, rf.overlapping k = true → chunks k ≠ none) →
      computeSharing rf chunks l =
        Except.ok (l.filter (sharedCandidate rf chunks)) := by
  intro l
  induction l with
  | nil => intro _; rfl
  | cons k ks ih =>
    intro h
    have hrest : ∀ j ∈ ks, rf.overlapping j = true → chunks j ≠ none :=
      fun j hj => h j (List.mem_cons_of_mem _ hj)
    unfold computeSharing
    by_cases ho : rf.overlapping k = true
    · cases hc : chunks k with
      | none => exact absurd hc (h k (List.mem_cons_self _ _) ho)
      | some c =>
        rw [ho, if_pos rfl, ih hrest]
        by_cases hw : c.2 = ChunkStatus.CHUNK_WRONG_LOCATED
        · simp [Except.map, List.filter_cons, sharedCandidate, ho, hc, hw]
        · simp [Except.map, List.filter_cons, sharedCandidate, ho, hc, hw]
    · have ho2 : rf.overlapping k = false := by
        cases hov : rf.overlapping k with
        | true => exact absurd hov ho
        | false => rfl
      rw [ho2, if_neg (by simp), ih hrest]
      simp [List.filter_cons, sharedCandidate, ho2]

/-- When an overlap-flagged coordinate of the list has no stored record, the
`sharing` comprehension raises `KeyError` (at some offending coordinate). -/
theorem computeSharing_error (rf : RegionFileData)
    (chunks : LocalCoords → Option ChunkRecord) :
    ∀ (l : List LocalCoords),
      (∃ k ∈ l, rf.overlapping k = true ∧ chunks k = none) →
      ∃ j, computeSharing rf chunks l = Except.error j ∧
        rf.overlapping j = true ∧ chunks j = none := by
  intro l
  induction l with
  | nil => rintro ⟨k, hk, _⟩; cases hk
  | cons k ks ih =>
    rintro ⟨j0, hj0, hov, hnone⟩
    unfold computeSharing
    by_cases ho : rf.overlapping k = true
    · cases hc : chunks k with
      | none => exact ⟨k, by rw [ho, if_pos rfl], ho, hc⟩
      | some c =>
        have hj0ks : j0 ∈ ks := by
          rcases List.mem_cons.mp hj0 with h | h
          · subst h; rw [hc] at hnone; cases hnone
          · exact h
        obtain ⟨j, hj, hov2, hnone2⟩ := ih ⟨j0, hj0ks, hov, hnone⟩
        refine ⟨j, ?_, hov2, hnone2⟩
        rw [ho, if_pos rfl]
        show Except.map _ (computeSharing rf chunks ks) = Except.error j
        rw [hj]
        rfl
    · have hj0ks : j0 ∈ ks := by
        rcases List.mem_cons.mp hj0 with h | h
        · subst h; exact absurd hov ho
        · exact h
      have ho2 : rf.overlapping k = false := by
        cases hov3 : rf.overlapping k with
        | true => exact absurd hov3 ho
        | false => rfl
      obtain ⟨j, hj, hov2, hnone2⟩ := ih ⟨j0, hj0ks, hov, hnone⟩
      exact ⟨j, by rw [ho2, if_neg (by simp), hj], hov2, hnone2⟩

/-- When every coordinate of a duplicate-free `sharing` list has a stored
record, the reclassification loop succeeds, counts one reclassification per
listed coordinate, and rewrites exactly the listed slots to
`SHARED_OFFSET` (keeping their entity counts). -/
theorem applySharing_ok :
    ∀ (l : List LocalCoords) (chunks : LocalCoords → Option ChunkRecord)
      (n : Nat), l.Nodup → (∀ k ∈ l, chunks k ≠ none) →
      ∃ chunks2,
        applySharing chunks n l = Except.ok (chunks2, n + l.length) ∧
        ∀ j, chunks2 j =
          if j ∈ l then
            (match chunks j with
             | some c => some (c.1, ChunkStatus.CHUNK_SHARED_OFFSET)
             | none => none)
          else chunks j := by
  intro l
  induction l with
  | nil =>
    intro chunks n _ _
    exact ⟨chunks, rfl, by intro j; simp⟩
  | cons k ks ih =>
    intro chunks n hnd hsome
    cases hc : chunks k with
    | none => exact absurd hc (hsome k (List.mem_cons_self _ _))
    | some c =>
      have hknotin : k ∉ ks := (List.nodup_cons.mp hnd).1
      have hsome2 : ∀ j ∈ ks,
          Function.update chunks k
            (some (c.1, ChunkStatus.CHUNK_SHARED_OFFSET)) j ≠ none := by
        intro j hj
        rw [Function.update_noteq (ne_of_mem_of_not_mem hj hknotin)]
        exact hsome j (List.mem_cons_of_mem _ hj)
      obtain ⟨chunks2, heq, hchar⟩ :=
        ih (Function.update chunks k
          (some (c.1, ChunkStatus.CHUNK_SHARED_OFFSET))) (n + 1)
          (List.nodup_cons.mp hnd).2 hsome2
      refine ⟨chunks2, ?_, ?_⟩
      · unfold applySharing
        rw [hc]
        show applySharing (Function.update chunks k
            (some (c.1, ChunkStatus.CHUNK_SHARED_OFFSET))) (n + 1) ks =
          Except.ok (chunks2, n + (k :: ks).length)
        rw [heq, List.length_cons]
        have harith : n + 1 + ks.length = n + (ks.length + 1) := by omega
        rw [harith]
      · intro j
        rw [hchar j]
        by_cases hjks : j ∈ ks
        · rw [if_pos hjks, if_pos (List.mem_cons_of_mem _ hjks),
            Function.update_noteq (ne_of_mem_of_not_mem hjks hknotin)]
        · by_cases hjk : j = k
          · subst hjk
            rw [if_neg hjks, if_pos (List.mem_cons_self _ _),
              Function.update_same, hc]
          · rw [if_neg hjks,
              if_neg (by
                intro hmem
                rcases List.mem_cons.mp hmem with h | h
                · exact hjk h
                · exact hjks h),
              Function.update_noteq hjk]

/-- `scan_chunk` withholds a record exactly for an absent chunk. -/
theorem scan_chunk_eq_none_iff (d : GetChunkResult) (g : Int × Int)
    (el : Nat) :
    scan_chunk d g el = none ↔ d = GetChunkResult.inconceivedChunk := by
  cases d with
  | ok dc n =>
    simp only [scan_chunk, scan_chunk_locals]
    by_cases h : dc ≠ g
    · simp [h]
    · by_cases h2 : n > el <;> simp [h, h2]
  | inconceivedChunk => simp [scan_chunk, scan_chunk_locals]
  | regionHeaderError msg => simp [scan_chunk, scan_chunk_locals]
  | chunkDataError msg => simp [scan_chunk, scan_chunk_locals]
  | chunkHeaderError msg => simp [scan_chunk, scan_chunk_locals]

/-- A record produced by `scan_chunk` never carries `CHUNK_NOT_CREATED`. -/
theorem scan_chunk_some_status (d : GetChunkResult) (g : Int × Int)
    (el : Nat) (c : ChunkRecord) (h : scan_chunk d g el = some c) :
    c.2 ≠ ChunkStatus.CHUNK_NOT_CREATED := by
  unfold scan_chunk at h
  by_cases hs : (scan_chunk_locals d g el).status = ChunkStatus.CHUNK_NOT_CREATED
  · simp [hs] at h
  · simp only [ne_eq, hs, not_false_eq_true, if_pos, if_true] at h
    injection h with h2
    rw [← h2]
    exact hs

/-- A step whose chunk is absent leaves the whole scan state unchanged
(the caller stores no slot, scan.py lines 620-622). -/
theorem scanStep_skip (rf : RegionFileData)
    (gc : Fin 32 → Fin 32 → Int × Int) (el : Nat) (dele : Bool)
    (s : ScanState) (k : LocalCoords)
    (h : scan_chunk (rf.get_chunk k.1 k.2) (gc k.1 k.2) el = none) :
    scanStep rf gc el dele s k = s := by
  unfold scanStep
  rw [h]

/-! ## Claim theorems -/

/-- C2 -- For every chunk that decodes successfully, `scan_chunk` classifies
it `WRONG_LOCATED` whenever the self-declared coordinate differs from the
expected global coordinate (regardless of the entity count), else
`TOO_MANY_ENTITIES` when the entity count exceeds the limit, else `OK`;
the record always carries the decoded entity count. -/
theorem scan_chunk_classification (data_coords global_coords : Int × Int)
    (num_entities entity_limit : Nat) :
    scan_chunk (GetChunkResult.ok data_coords num_entities) global_coords
        entity_limit =
      some (some num_entities,
        if data_coords ≠ global_coords then ChunkStatus.CHUNK_WRONG_LOCATED
        else if num_entities > entity_limit then
          ChunkStatus.CHUNK_TOO_MANY_ENTITIES
        else ChunkStatus.CHUNK_OK) := by
  unfold scan_chunk scan_chunk_locals
  by_cases h : data_coords ≠ global_coords
  · simp [h]
  · by_cases h2 : num_entities > entity_limit <;> simp [h, h2]

/-- C4 -- When opening the region file fails, `scan_region_file` returns at
once with status `REGION_TOO_SMALL` (no header) or `REGION_UNREADABLE`
(I/O error), with `scan_time` recorded, `scanned = true`, an empty chunk
map, and no exception reaching the caller (the outcome is a normal
result, not a fault). -/
theorem scan_region_file_open_failure (filename : String) (rx rz : Int)
    (st : RegionStatus) (entity_limit : Nat) (delete_entities : Bool) :
    scan_region_file (freshScannedRegionFile filename rx rz st)
        OpenResult.noRegionHeader entity_limit delete_entities =
      ScanRFResult.ok
        { freshScannedRegionFile filename rx rz st with
            status := RegionStatus.REGION_TOO_SMALL,
            scan_time_recorded := true, scanned := true } ∧
    scan_region_file (freshScannedRegionFile filename rx rz st)
        OpenResult.ioError entity_limit delete_entities =
      ScanRFResult.ok
        { freshScannedRegionFile filename rx rz st with
            status := RegionStatus.REGION_UNREADABLE,
            scan_time_recorded := true, scanned := true } ∧
    (∀ k, (freshScannedRegionFile filename rx rz st).chunks k = none) :=
  ⟨rfl, rfl, fun _ => rfl⟩

/-- C8 -- `get_last_result` is non-blocking: an empty channel returns
"no result" with the session unchanged; a popped fault tuple raises
`ChildProcessException` carrying the partial result and the captured
exception data; a popped success overwrites the regionset at the result's
coordinate key and returns the result. -/
theorem get_last_result_cases (rest : List QueueItem)
    (regionset : Int × Int → Option ScannedRegionFile) (nm : String)
    (ls : Option String) (p : ScannedRegionFile) (info : ExcInfo)
    (r : ScannedRegionFile) :
    AsyncRegionsetScanner.get_last_result ⟨[], regionset, nm, ls⟩ =
      (GetLastOutcome.noResult, ⟨[], regionset, nm, ls⟩) ∧
    AsyncRegionsetScanner.get_last_result
        ⟨QueueItem.faultTuple p info :: rest, regionset, nm, ls⟩ =
      (GetLastOutcome.childProcessException p info.exc_type info.exc_class
          info.tb_text,
        ⟨rest, regionset, nm, ls⟩) ∧
    AsyncRegionsetScanner.get_last_result
        ⟨QueueItem.result r :: rest, regionset, nm, ls⟩ =
      (GetLastOutcome.ok r,
        ⟨rest, Function.update regionset r.get_coords (some r), nm,
          some (nm ++ ": " ++ r.filename)⟩) :=
  ⟨rfl, rfl, rfl⟩

/-- C9 -- The session is finished exactly when the pool reports all tasks
complete and the channel is empty; the blocking generator's loop guard
only goes false when the session is finished, and it stays true whenever
the channel is non-empty, whatever the pool reports. -/
theorem finished_and_results_loop (results_ready queue_empty : Bool) :
    (AsyncRegionsetScanner.finished results_ready queue_empty = true ↔
      results_ready = true ∧ queue_empty = true) ∧
    (AsyncRegionsetScanner.results_loop_cond results_ready queue_empty = false ↔
      AsyncRegionsetScanner.finished results_ready queue_empty = true) ∧
    AsyncRegionsetScanner.results_loop_cond results_ready false = true := by
  cases results_ready <;> cases queue_empty <;>
    simp [AsyncRegionsetScanner.finished, AsyncRegionsetScanner.results_loop_cond]

/-- C3 -- A non-interrupt exception at the task boundary becomes the fault
tuple pairing the partially filled result with the captured exception
type, value and frames; the tuple (not the success value) is pushed onto
the channel by the worker wrapper; any consumer pop discriminates fault
from success exactly by the tuple-shape test. -/
theorem fault_marshaling (p : ScannedRegionFile) (info : ExcInfo)
    (q : List QueueItem) (r : ScannedRegionFile)
    (regionset : Int × Int → Option ScannedRegionFile) (nm : String)
    (ls : Option String) :
    scanTaskBoundary (BodyOutcome.raises p (PyExc.other info)) =
      ScanRFResult.faultTuple p info ∧
    put_result q (ScanRFResult.faultTuple p info) =
      q ++ [QueueItem.faultTuple p info] ∧
    (QueueItem.faultTuple p info).isTuple = true ∧
    (QueueItem.result r).isTuple = false ∧
    (∀ (item : QueueItem) (rest : List QueueItem),
      (AsyncRegionsetScanner.get_last_result
          ⟨item :: rest, regionset, nm, ls⟩).1.raisedChildProcessException =
        item.isTuple) := by
  refine ⟨rfl, rfl, rfl, rfl, ?_⟩
  intro item rest
  cases item <;> rfl

/-- Starting from an empty slot, a loop step leaves the slot empty exactly
when the chunk decodes as absent. -/
theorem slotOutcome_none_iff (rf : RegionFileData)
    (gc : Fin 32 → Fin 32 → Int × Int) (el : Nat) (dele : Bool)
    (k : LocalCoords) :
    slotOutcome rf gc el dele none k = none ↔
      rf.get_chunk k.1 k.2 = GetChunkResult.inconceivedChunk := by
  unfold slotOutcome
  cases hsc : scan_chunk (rf.get_chunk k.1 k.2) (gc k.1 k.2) el with
  | none => exact iff_of_true rfl ((scan_chunk_eq_none_iff _ _ _).mp hsc)
  | some c =>
    apply iff_of_false
    · intro h
      have h2 : (if c.2 = ChunkStatus.CHUNK_TOO_MANY_ENTITIES ∧ dele = true
          then some ((some 0 : Option Nat), ChunkStatus.CHUNK_OK)
          else some c) = none := h
      split at h2 <;> exact Option.noConfusion h2
    · intro heq
      rw [heq, (scan_chunk_eq_none_iff GetChunkResult.inconceivedChunk
        (gc k.1 k.2) el).mpr rfl] at hsc
      exact Option.noConfusion hsc

/-- Starting from an empty slot, any record a loop step stores carries a
status other than `CHUNK_NOT_CREATED`. -/
theorem slotOutcome_status (rf : RegionFileData)
    (gc : Fin 32 → Fin 32 → Int × Int) (el : Nat) (dele : Bool)
    (k : LocalCoords) (c : ChunkRecord)
    (h : slotOutcome rf gc el dele none k = some c) :
    c.2 ≠ ChunkStatus.CHUNK_NOT_CREATED := by
  unfold slotOutcome at h
  cases hsc : scan_chunk (rf.get_chunk k.1 k.2) (gc k.1 k.2) el with
  | none => rw [hsc] at h; exact absurd h (by simp)
  | some c0 =>
    rw [hsc] at h
    have h2 : (if c0.2 = ChunkStatus.CHUNK_TOO_MANY_ENTITIES ∧ dele = true
        then some ((some 0 : Option Nat), ChunkStatus.CHUNK_OK)
        else some c0) = some c := h
    split at h2
    · injection h2 with h3
      rw [← h3]
      simp
    · injection h2 with h3
      rw [← h3]
      exact scan_chunk_some_status _ _ _ _ hsc

/-- C5 -- For a chunk classified `TOO_MANY_ENTITIES` by the scan loop:
with deletion enabled the entities are deleted (one recorded side effect),
the stored record becomes `(0, CHUNK_OK)` and `entities_prob` is not
touched; with deletion disabled the record stays `TOO_MANY_ENTITIES` and
`entities_prob` grows by exactly one -- the two effects are mutually
exclusive. In both modes the chunk still counts into `chunk_count`. -/
theorem too_many_entities_deletion (rf : RegionFileData)
    (gc : Fin 32 → Fin 32 → Int × Int) (el : Nat) (s : ScanState)
    (k : LocalCoords) (n_ent : Option Nat)
    (h : scan_chunk (rf.get_chunk k.1 k.2) (gc k.1 k.2) el =
      some (n_ent, ChunkStatus.CHUNK_TOO_MANY_ENTITIES)) :
    ((scanStep rf gc el true s k).r_chunks k =
        some (some 0, ChunkStatus.CHUNK_OK) ∧
      (scanStep rf gc el true s k).deletions = s.deletions ++ [(k, n_ent)] ∧
      (scanStep rf gc el true s k).entities_prob = s.entities_prob ∧
      (scanStep rf gc el true s k).chunk_count = s.chunk_count + 1) ∧
    ((scanStep rf gc el false s k).r_chunks k =
        some (n_ent, ChunkStatus.CHUNK_TOO_MANY_ENTITIES) ∧
      (scanStep rf gc el false s k).deletions = s.deletions ∧
      (scanStep rf gc el false s k).entities_prob = s.entities_prob + 1 ∧
      (scanStep rf gc el false s k).chunk_count = s.chunk_count + 1) := by
  constructor
  · unfold scanStep
    rw [h]
    simp [Function.update_same]
  · unfold scanStep
    rw [h]
    simp [Function.update_same]

/-- Witness for C5: a chunk at (0,0) declaring its expected coordinate but
holding 5 entities against a limit of 2. -/
theorem too_many_entities_deletion_witness :
    scan_chunk
        ((⟨fun _ _ => GetChunkResult.ok (0, 0) 5,
            fun _ => false⟩ : RegionFileData).get_chunk
          ((0, 0) : LocalCoords).1 ((0, 0) : LocalCoords).2)
        ((fun _ _ => ((0 : Int), (0 : Int)))
          ((0, 0) : LocalCoords).1 ((0, 0) : LocalCoords).2) 2 =
      some (some 5, ChunkStatus.CHUNK_TOO_MANY_ENTITIES) ∧
    (scanStep (⟨fun _ _ => GetChunkResult.ok (0, 0) 5, fun _ => false⟩ :
        RegionFileData)
      (fun _ _ => ((0 : Int), (0 : Int))) 2 true
      ⟨fun _ => none, 0, 0, 0, 0, []⟩ ((0, 0) : LocalCoords)).r_chunks
        ((0, 0) : LocalCoords) = some (some 0, ChunkStatus.CHUNK_OK) :=
  ⟨rfl,
   (too_many_entities_deletion
      (⟨fun _ _ => GetChunkResult.ok (0, 0) 5, fun _ => false⟩ :
        RegionFileData)
      (fun _ _ => ((0 : Int), (0 : Int))) 2
      ⟨fun _ => none, 0, 0, 0, 0, []⟩ ((0, 0) : LocalCoords) (some 5)
      rfl).1.1⟩

/-- C6 -- An absent chunk produces no record (`scan_chunk` returns none and
the loop step stores nothing and changes nothing); consequently, scanning
from a freshly constructed result, a slot is left unstored exactly when its
chunk decodes as absent (`NOT_CREATED`), and every stored slot carries one
status from the closed enum other than `CHUNK_NOT_CREATED`. -/
theorem not_created_not_stored (g : Int × Int) (el : Nat) :
    scan_chunk GetChunkResult.inconceivedChunk g el = none ∧
    (∀ (rf : RegionFileData) (gc : Fin 32 → Fin 32 → Int × Int)
       (dele : Bool) (s : ScanState) (k : LocalCoords),
      scan_chunk (rf.get_chunk k.1 k.2) (gc k.1 k.2) el = none →
      scanStep rf gc el dele s k = s) ∧
    (∀ (filename : String) (rx rz : Int) (st : RegionStatus)
       (rf : RegionFileData) (dele : Bool) (k : LocalCoords),
      ((scanLoop (freshScannedRegionFile filename rx rz st) rf el
          dele).r_chunks k = none ↔
        rf.get_chunk k.1 k.2 = GetChunkResult.inconceivedChunk) ∧
      (∀ c, (scanLoop (freshScannedRegionFile filename rx rz st) rf el
          dele).r_chunks k = some c →
        c.2 ≠ ChunkStatus.CHUNK_NOT_CREATED)) := by
  refine ⟨rfl, fun rf gc dele s k h => scanStep_skip rf gc el dele s k h, ?_⟩
  intro filename rx rz st rf dele k
  constructor
  · rw [scanLoop_chunks]
    exact slotOutcome_none_iff rf _ el dele k
  · intro c hc
    rw [scanLoop_chunks] at hc
    exact slotOutcome_status rf _ el dele k c hc

/-- Witness for C6: a region file with every chunk absent stores nothing at
(0,0) and the step on an absent chunk is a no-op. -/
theorem not_created_not_stored_witness :
    scan_chunk GetChunkResult.inconceivedChunk ((0 : Int), (0 : Int)) 0 =
      none ∧
    scanStep (⟨fun _ _ => GetChunkResult.inconceivedChunk, fun _ => false⟩ :
        RegionFileData)
      (fun _ _ => ((0 : Int), (0 : Int))) 0 false
      ⟨fun _ => none, 0, 0, 0, 0, []⟩ ((0, 0) : LocalCoords) =
      ⟨fun _ => none, 0, 0, 0, 0, []⟩ :=
  ⟨(not_created_not_stored ((0 : Int), (0 : Int)) 0).1,
   (not_created_not_stored ((0 : Int), (0 : Int)) 0).2.1
     ⟨fun _ _ => GetChunkResult.inconceivedChunk, fun _ => false⟩
     (fun _ _ => ((0 : Int), (0 : Int))) false
     ⟨fun _ => none, 0, 0, 0, 0, []⟩ ((0, 0) : LocalCoords) rfl⟩

/-- C7 -- Each of the three decode failures makes `scan_chunk` classify the
slot `CORRUPTED` with a status text carrying the decoder's message and no
entity count; the region scan does not abort: the loop step is total,
counts the corruption, stores the record and the fold continues with the
remaining coordinates. -/
theorem corrupted_chunk_continues (msg : String) (g : Int × Int) (el : Nat) :
    scan_chunk_locals (GetChunkResult.regionHeaderError msg) g el =
      ⟨none, ChunkStatus.CHUNK_CORRUPTED, "Region header error: " ++ msg⟩ ∧
    scan_chunk_locals (GetChunkResult.chunkDataError msg) g el =
      ⟨none, ChunkStatus.CHUNK_CORRUPTED, "Chunk data error: " ++ msg⟩ ∧
    scan_chunk_locals (GetChunkResult.chunkHeaderError msg) g el =
      ⟨none, ChunkStatus.CHUNK_CORRUPTED, "Chunk herader error: " ++ msg⟩ ∧
    scan_chunk (GetChunkResult.regionHeaderError msg) g el =
      some (none, ChunkStatus.CHUNK_CORRUPTED) ∧
    scan_chunk (GetChunkResult.chunkDataError msg) g el =
      some (none, ChunkStatus.CHUNK_CORRUPTED) ∧
    scan_chunk (GetChunkResult.chunkHeaderError msg) g el =
      some (none, ChunkStatus.CHUNK_CORRUPTED) ∧
    (∀ (rf : RegionFileData) (gc : Fin 32 → Fin 32 → Int × Int) (dele : Bool)
       (s : ScanState) (k : LocalCoords) (rest : List LocalCoords),
      List.foldl (scanStep rf gc el dele) s (k :: rest) =
        List.foldl (scanStep rf gc el dele) (scanStep rf gc el dele s k)
          rest) ∧
    (∀ (rf : RegionFileData) (gc : Fin 32 → Fin 32 → Int × Int) (dele : Bool)
       (s : ScanState) (k : LocalCoords),
      scan_chunk (rf.get_chunk k.1 k.2) (gc k.1 k.2) el =
        some (none, ChunkStatus.CHUNK_CORRUPTED) →
      (scanStep rf gc el dele s k).corrupted = s.corrupted + 1 ∧
      (scanStep rf gc el dele s k).r_chunks k =
        some (none, ChunkStatus.CHUNK_CORRUPTED)) := by
  refine ⟨rfl, rfl, rfl, rfl, rfl, rfl, fun _ _ _ _ _ _ => rfl, ?_⟩
  intro rf gc dele s k h
  unfold scanStep
  rw [h]
  constructor <;> simp [Function.update_same]

/-- Witness for C7: a region header decode failure at (0,0) bumps the
corruption counter and the scan state remains well defined. -/
theorem corrupted_chunk_continues_witness :
    (scanStep (⟨fun _ _ => GetChunkResult.regionHeaderError "bad header",
        fun _ => false⟩ : RegionFileData)
      (fun _ _ => ((0 : Int), (0 : Int))) 0 false
      ⟨fun _ => none, 0, 0, 0, 0, []⟩ ((0, 0) : LocalCoords)).corrupted =
      0 + 1 :=
  ((corrupted_chunk_continues "bad header" ((0 : Int), (0 : Int)) 0).2.2.2.2.2.2.2
    ⟨fun _ _ => GetChunkResult.regionHeaderError "bad header", fun _ => false⟩
    (fun _ _ => ((0 : Int), (0 : Int))) false ⟨fun _ => none, 0, 0, 0, 0, []⟩
    ((0, 0) : LocalCoords) rfl).1

/-- C10 -- The shared-offset post-pass reads the stored record of every
overlap-flagged coordinate; when some overlap-flagged slot has no stored
record (its chunk was absent, so nothing was stored), the lookup raises and
the error escapes the post-pass into the catch-all fault path: the scan
yields a fault tuple carrying the partially filled result (loop chunks
stored, counters untouched) instead of a classification. -/
theorem overlap_missing_record_faults (r0 : ScannedRegionFile)
    (rf : RegionFileData) (el : Nat) (dele : Bool) (k : LocalCoords)
    (hov : rf.overlapping k = true)
    (hmiss : (scanLoop r0 rf el dele).r_chunks k = none) :
    ∃ j, rf.overlapping j = true ∧
      (scanLoop r0 rf el dele).r_chunks j = none ∧
      scan_region_file r0 (OpenResult.ok rf.get_chunk rf.overlapping) el
          dele =
        ScanRFResult.faultTuple
          { r0 with chunks := (scanLoop r0 rf el dele).r_chunks }
          (keyErrorInfo j) := by
  obtain ⟨j, hj, hov2, hnone2⟩ :=
    computeSharing_error rf (scanLoop r0 rf el dele).r_chunks allCoords
      ⟨k, mem_allCoords k, hov, hmiss⟩
  refine ⟨j, hov2, hnone2, ?_⟩
  show scanTaskBoundary (scanBody r0 rf el dele) = _
  simp only [scanBody, hj]
  rfl

/-- Witness for C10: with every header slot overlap-flagged and every chunk
absent, the scan of a fresh region object faults with the partial result. -/
theorem overlap_missing_record_faults_witness :
    emptyOverlapRegion.overlapping ((0, 0) : LocalCoords) = true ∧
    (scanLoop sampleRegion0 emptyOverlapRegion 0 false).r_chunks
      ((0, 0) : LocalCoords) = none ∧
    (∃ j, emptyOverlapRegion.overlapping j = true ∧
      (scanLoop sampleRegion0 emptyOverlapRegion 0 false).r_chunks j = none ∧
      scan_region_file sampleRegion0
          (OpenResult.ok emptyOverlapRegion.get_chunk
            emptyOverlapRegion.overlapping) 0 false =
        ScanRFResult.faultTuple
          { sampleRegion0 with
              chunks := (scanLoop sampleRegion0 emptyOverlapRegion 0
                false).r_chunks }
          (keyErrorInfo j)) :=
  ⟨rfl,
   (scanLoop_chunks sampleRegion0 emptyOverlapRegion 0 false
      ((0, 0) : LocalCoords)).trans rfl,
   overlap_missing_record_faults sampleRegion0 emptyOverlapRegion 0 false
     ((0, 0) : LocalCoords) rfl
     ((scanLoop_chunks sampleRegion0 emptyOverlapRegion 0 false
        ((0, 0) : LocalCoords)).trans rfl)⟩

set_option maxRecDepth 2048 in
/-- C1 -- When every overlap-flagged slot has a stored record, the
post-pass reclassifies exactly the slots that are overlap-flagged and
currently `WRONG_LOCATED` to `SHARED_OFFSET` (keeping their entity
counts); the result's `shared_offset` equals the number of such slots;
`wrong_located_chunks` stays at the loop's count (unadjusted); and every
other slot -- in particular an overlap-flagged slot whose status is not
`WRONG_LOCATED`, such as `OK` -- keeps its record unchanged. -/
theorem shared_offset_post_pass (r0 : ScannedRegionFile)
    (rf : RegionFileData) (el : Nat) (dele : Bool)
    (H : ∀ k, rf.overlapping k = true →
      (scanLoop r0 rf el dele).r_chunks k ≠ none) :
    ∃ r, scan_region_file r0 (OpenResult.ok rf.get_chunk rf.overlapping) el
        dele = ScanRFResult.ok r ∧
      r.shared_offset =
        (allCoords.filter
          (sharedCandidate rf (scanLoop r0 rf el dele).r_chunks)).length ∧
      r.wrong_located_chunks = (scanLoop r0 rf el dele).wrong ∧
      (∀ k, sharedCandidate rf (scanLoop r0 rf el dele).r_chunks k = true →
        ∃ c, (scanLoop r0 rf el dele).r_chunks k = some c ∧
          c.2 = ChunkStatus.CHUNK_WRONG_LOCATED ∧
          r.chunks k = some (c.1, ChunkStatus.CHUNK_SHARED_OFFSET)) ∧
      (∀ k, sharedCandidate rf (scanLoop r0 rf el dele).r_chunks k = false →
        r.chunks k = (scanLoop r0 rf el dele).r_chunks k) := by
  have hcs := computeSharing_ok rf (scanLoop r0 rf el dele).r_chunks allCoords
    (fun k _ => H k)
  have hnd : (allCoords.filter
      (sharedCandidate rf (scanLoop r0 rf el dele).r_chunks)).Nodup :=
    allCoords_nodup.filter _
  have hmem : ∀ k ∈ allCoords.filter
      (sharedCandidate rf (scanLoop r0 rf el dele).r_chunks),
      (scanLoop r0 rf el dele).r_chunks k ≠ none := by
    intro k hk hnone
    have hcand := List.of_mem_filter hk
    unfold sharedCandidate at hcand
    rw [hnone] at hcand
    simp at hcand
  obtain ⟨chunks2, happ, hchar⟩ := applySharing_ok
    (allCoords.filter (sharedCandidate rf (scanLoop r0 rf el dele).r_chunks))
    (scanLoop r0 rf el dele).r_chunks 0 hnd hmem
  refine ⟨{ r0 with
      chunks := chunks2,
      chunk_count := (scanLoop r0 rf el dele).chunk_count,
      corrupted_chunks := (scanLoop r0 rf el dele).corrupted,
      wrong_located_chunks := (scanLoop r0 rf el dele).wrong,
      entities_prob := (scanLoop r0 rf el dele).entities_prob,
      shared_offset := 0 + (allCoords.filter
        (sharedCandidate rf (scanLoop r0 rf el dele).r_chunks)).length,
      status := RegionStatus.REGION_OK,
      scanned := true,
      scan_time_recorded := true }, ?_, ?_, ?_, ?_, ?_⟩
  · show scanTaskBoundary (scanBody r0 rf el dele) = _
    simp only [scanBody, hcs, happ]
    rfl
  · exact Nat.zero_add _
  · rfl
  · intro k hk
    have hkmem : k ∈ allCoords.filter
        (sharedCandidate rf (scanLoop r0 rf el dele).r_chunks) :=
      List.mem_filter.mpr ⟨mem_allCoords k, hk⟩
    have hcand := hk
    unfold sharedCandidate at hcand
    cases hck : (scanLoop r0 rf el dele).r_chunks k with
    | none => rw [hck] at hcand; simp at hcand
    | some c =>
      rw [hck] at hcand
      simp only [Bool.and_eq_true, decide_eq_true_eq] at hcand
      refine ⟨c, rfl, hcand.2, ?_⟩
      show chunks2 k = _
      rw [hchar k, if_pos hkmem, hck]
  · intro k hk
    have hknot : k ∉ allCoords.filter
        (sharedCandidate rf (scanLoop r0 rf el dele).r_chunks) := by
      intro hmem2
      rw [List.of_mem_filter hmem2] at hk
      exact Bool.noConfusion hk
    show chunks2 k = _
    rw [hchar k, if_neg hknot]

/-- Witness for C1: a region file with no overlap flags vacuously satisfies
the stored-record precondition; the scan completes normally with the
post-pass characterization. -/
theorem shared_offset_post_pass_witness :
    (∀ k, emptyCleanRegion.overlapping k = true →
      (scanLoop sampleRegion0 emptyCleanRegion 0 false).r_chunks k ≠ none) ∧
    (∃ r, scan_region_file sampleRegion0
        (OpenResult.ok emptyCleanRegion.get_chunk
          emptyCleanRegion.overlapping) 0 false = ScanRFResult.ok r ∧
      r.shared_offset =
        (allCoords.filter (sharedCandidate emptyCleanRegion
          (scanLoop sampleRegion0 emptyCleanRegion 0
            false).r_chunks)).length ∧
      r.wrong_located_chunks =
        (scanLoop sampleRegion0 emptyCleanRegion 0 false).wrong ∧
      (∀ k, sharedCandidate emptyCleanRegion
          (scanLoop sampleRegion0 emptyCleanRegion 0 false).r_chunks k =
            true →
        ∃ c, (scanLoop sampleRegion0 emptyCleanRegion 0 false).r_chunks k =
            some c ∧
          c.2 = ChunkStatus.CHUNK_WRONG_LOCATED ∧
          r.chunks k = some (c.1, ChunkStatus.CHUNK_SHARED_OFFSET)) ∧
      (∀ k, sharedCandidate emptyCleanRegion
          (scanLoop sampleRegion0 emptyCleanRegion 0 false).r_chunks k =
            false →
        r.chunks k =
          (scanLoop sampleRegion0 emptyCleanRegion 0 false).r_chunks k)) :=
  ⟨fun _ h => absurd (h : false = true) Bool.false_ne_true,
   shared_offset_post_pass sampleRegion0 emptyCleanRegion 0 false
     (fun _ h => absurd (h : false = true) Bool.false_ne_true)⟩
